import Mathlib

/-!
Shallow embedding of the scene resource and rendering-state management layer
of `Source/SceneManager.cpp` (texture registry, material registry, transform
composer, shader uniform binder), together with proofs about the claims on
this layer.

Modelling conventions:
* `float` fields that are only stored, compared and copied are modelled as `ℚ`
  (exact values; no claim depends on floating-point rounding).
* The transform composer uses trigonometry, so it is modelled over `ℝ` in a
  separate section below.
* `GLuint` texture handles are modelled as `Nat` (handles produced by
  `glGenTextures` are small non-negative values, so the `GLuint → int`
  conversion in `FindTextureID` is value-preserving and modelled by
  `Int.ofNat`).
* The shader sink (`ShaderManager`) is modelled as the ordered list of
  `setValue`-style writes it has received: each `set...Value` call appends
  one `(name, value)` pair.
* Member functions of `SceneManager` become functions over an explicit
  `SceneState`; a method that can mutate state returns the new state.
  Read-only lookups (`FindTextureSlot`) additionally return the state to
  record that the method leaves it unchanged.
-/

/-- A 3-component vector of (exact) scalar values, modelling `glm::vec3`
where only storage and copying happen (material colors, etc.). -/
structure Vec3 where
  x : ℚ
  y : ℚ
  z : ℚ
deriving DecidableEq, Repr

/-- One entry of the texture registry: `m_textureIDs[i]` holds the OpenGL
texture handle (`GLuint ID`) and the human-readable tag. -/
structure TEXTURE_INFO where
  ID : Nat
  tag : String
deriving DecidableEq, Repr

/-- One entry of the material registry (`OBJECT_MATERIAL` in the source). -/
structure OBJECT_MATERIAL where
  ambientColor : Vec3
  ambientStrength : ℚ
  diffuseColor : Vec3
  specularColor : Vec3
  shininess : ℚ
  tag : String
deriving DecidableEq, Repr

/-- A value written to the shader uniform sink by one of the
`ShaderManager::set...Value` calls. -/
inductive UniformValue where
  | i (v : Int)
  | f (v : ℚ)
  | b (v : Bool)
  | v2 (x y : ℚ)
  | v3 (v : Vec3)
  | v4 (x y z w : ℚ)
  | sampler (v : Int)
deriving DecidableEq, Repr

/-- The shader uniform sink, modelled as the ordered log of named-uniform
writes it has received. -/
structure ShaderManager where
  writes : List (String × UniformValue)
deriving DecidableEq, Repr

def ShaderManager.setIntValue (sm : ShaderManager) (n : String) (v : Int) : ShaderManager :=
  ⟨sm.writes ++ [(n, UniformValue.i v)]⟩

def ShaderManager.setFloatValue (sm : ShaderManager) (n : String) (v : ℚ) : ShaderManager :=
  ⟨sm.writes ++ [(n, UniformValue.f v)]⟩

def ShaderManager.setBoolValue (sm : ShaderManager) (n : String) (v : Bool) : ShaderManager :=
  ⟨sm.writes ++ [(n, UniformValue.b v)]⟩

def ShaderManager.setVec3Value (sm : ShaderManager) (n : String) (v : Vec3) : ShaderManager :=
  ⟨sm.writes ++ [(n, UniformValue.v3 v)]⟩

def ShaderManager.setSampler2DValue (sm : ShaderManager) (n : String) (v : Int) : ShaderManager :=
  ⟨sm.writes ++ [(n, UniformValue.sampler v)]⟩

/-- The uniform-name constants from the anonymous namespace at the top of
`SceneManager.cpp`. -/
def g_ModelName : String := "model"

def g_ColorValueName : String := "objectColor"

def g_TextureValueName : String := "objectTexture"

def g_UseTextureName : String := "bUseTexture"

def g_UseLightingName : String := "bUseLighting"

/-- The state of a `SceneManager` object: the (possibly null) shader manager
pointer and the two registries.  `m_textureIDs` together with
`m_loadedTextures` is modelled as the list of the first `m_loadedTextures`
array entries, so `m_loadedTextures = textureIDs.length` and a texture's
slot is its list index. -/
structure SceneState where
  pShaderManager : Option ShaderManager
  textureIDs : List TEXTURE_INFO
  objectMaterials : List OBJECT_MATERIAL
deriving DecidableEq, Repr

/-- `m_loadedTextures` of the source. -/
def SceneState.loadedTextures (st : SceneState) : Nat :=
  st.textureIDs.length

/-- The `while ((index < m_loadedTextures) && (bFound == false))` loop of
`SceneManager::FindTextureID`: returns the stored `ID` of the first entry
whose tag matches, else the initial value `-1`. -/
def findTextureIDLoop (tag : String) : List TEXTURE_INFO → Int
  | [] => -1
  | e :: rest => if e.tag = tag then (e.ID : Int) else findTextureIDLoop tag rest

/-- The loop of `SceneManager::FindTextureSlot`: returns the index of the
first entry whose tag matches (`idx` is the running `index` counter), else
the initial value `-1`. -/
def findTextureSlotLoop (tag : String) : List TEXTURE_INFO → Int → Int
  | [], _ => -1
  | e :: rest, idx => if e.tag = tag then idx else findTextureSlotLoop tag rest (idx + 1)

/-- `SceneManager::FindTextureID`: linear first-match lookup of a texture
handle by tag; `-1` when the tag is not registered.  The method only reads
the registry, so the returned state is the input state. -/
def SceneManager.FindTextureID (st : SceneState) (tag : String) : Int × SceneState :=
  (findTextureIDLoop tag st.textureIDs, st)

/-- `SceneManager::FindTextureSlot`: linear first-match lookup of a texture
slot index by tag; `-1` when the tag is not registered.  The method only
reads the registry, so the returned state is the input state. -/
def SceneManager.FindTextureSlot (st : SceneState) (tag : String) : Int × SceneState :=
  (findTextureSlotLoop tag st.textureIDs 0, st)

/-- The loop of `SceneManager::FindMaterial`: on the first entry whose tag
matches, the five material fields (not the tag) are copied into the
caller-supplied `material` out-parameter; if no entry matches, the
out-parameter keeps its incoming value. -/
def findMaterialLoop (tag : String) : List OBJECT_MATERIAL → OBJECT_MATERIAL → OBJECT_MATERIAL
  | [], material => material
  | m :: rest, material =>
    if m.tag = tag then
      { material with
        ambientColor := m.ambientColor
        ambientStrength := m.ambientStrength
        diffuseColor := m.diffuseColor
        specularColor := m.specularColor
        shininess := m.shininess }
    else findMaterialLoop tag rest material

/-- `SceneManager::FindMaterial(tag, material)`, as written in the source:
it returns `false` when the registry is empty, runs the first-match copy
loop otherwise, and then returns `true` unconditionally — the loop's
`bFound` flag is not consulted by the final `return(true)`.  The result is
`(return value, value of the caller's material reference afterwards)`. -/
def SceneManager.FindMaterial (mats : List OBJECT_MATERIAL) (tag : String)
    (material : OBJECT_MATERIAL) : Bool × OBJECT_MATERIAL :=
  if mats.length = 0 then
    (false, material)
  else
    (true, findMaterialLoop tag mats material)

/-- `SceneManager::SetShaderTexture`: if the shader manager is non-null,
write `bUseTexture := true` (via `setIntValue`), resolve the tag with
`FindTextureSlot` (initial `textureID = -1` is overwritten by the call),
and write the resolved slot as the `objectTexture` sampler uniform. -/
def SceneManager.SetShaderTexture (st : SceneState) (textureTag : String) : SceneState :=
  match st.pShaderManager with
  | none => st
  | some sm =>
    let sm1 := sm.setIntValue g_UseTextureName 1
    let textureID := (SceneManager.FindTextureSlot st textureTag).1
    let sm2 := sm1.setSampler2DValue g_TextureValueName textureID
    { st with pShaderManager := some sm2 }

/-- `SceneManager::SetShaderMaterial`: when the material registry is
non-empty, run `FindMaterial` into an uninitialized local
`OBJECT_MATERIAL material` (modelled by the arbitrary `junk` argument) and,
when it reports `true`, write the five `material.*` uniforms from that
local.  The shader-manager pointer is dereferenced without a null check on
this path, so a null pointer there is modelled as `none` (undefined
behaviour / crash). -/
def SceneManager.SetShaderMaterial (junk : OBJECT_MATERIAL) (st : SceneState)
    (materialTag : String) : Option SceneState :=
  if st.objectMaterials.length > 0 then
    let r := SceneManager.FindMaterial st.objectMaterials materialTag junk
    if r.1 = true then
      match st.pShaderManager with
      | none => none
      | some sm =>
        let sm1 := sm.setVec3Value "material.ambientColor" r.2.ambientColor
        let sm2 := sm1.setFloatValue "material.ambientStrength" r.2.ambientStrength
        let sm3 := sm2.setVec3Value "material.diffuseColor" r.2.diffuseColor
        let sm4 := sm3.setVec3Value "material.specularColor" r.2.specularColor
        let sm5 := sm4.setFloatValue "material.shininess" r.2.shininess
        some { st with pShaderManager := some sm5 }
    else
      some st
  else
    some st

/-- The result of `stbi_load` on an image file: `none` when the file cannot
be decoded, otherwise the reported width, height and channel count. -/
structure DecodedImage where
  width : Int
  height : Int
  colorChannels : Int
deriving DecidableEq, Repr

/-- The modelled OpenGL texture-object state: the next handle
`glGenTextures` will hand out, and the handles generated so far and not
yet deleted. -/
structure GLState where
  nextTextureID : Nat
  allocated : List Nat
deriving DecidableEq, Repr

/-- `glGenTextures(1, &id)`: allocates a fresh texture handle. -/
def glGenTextures (gl : GLState) : Nat × GLState :=
  (gl.nextTextureID, ⟨gl.nextTextureID + 1, gl.allocated ++ [gl.nextTextureID]⟩)

/-- `SceneManager::CreateGLTexture(filename, tag)`: `img` is the outcome of
`stbi_load` on `filename`.  On a decodable image a texture handle is
generated first; a 3- or 4-channel image is then uploaded and registered at
index `m_loadedTextures` (appended) and the counter incremented, returning
`true`; any other channel count returns `false` right away (the generated
handle is left behind, the registry untouched).  An undecodable file
returns `false` with nothing changed. -/
def SceneManager.CreateGLTexture (img : Option DecodedImage) (tag : String)
    (st : SceneState) (gl : GLState) : Bool × SceneState × GLState :=
  match img with
  | some image =>
    let genr := glGenTextures gl
    let textureID := genr.1
    let gl1 := genr.2
    if image.colorChannels = 3 then
      (true, { st with textureIDs := st.textureIDs ++ [⟨textureID, tag⟩] }, gl1)
    else if image.colorChannels = 4 then
      (true, { st with textureIDs := st.textureIDs ++ [⟨textureID, tag⟩] }, gl1)
    else
      (false, st, gl1)
  | none => (false, st, gl)

/-- The `for (int i = 0; i < m_loadedTextures; i++)` loop of
`SceneManager::DestroyGLTextures`, which runs
`glGenTextures(1, &m_textureIDs[i].ID)` on every registered entry:
each entry's stored `ID` is overwritten with a freshly generated handle. -/
def destroyGLTexturesLoop : List TEXTURE_INFO → GLState → List TEXTURE_INFO × GLState
  | [], gl => ([], gl)
  | e :: rest, gl =>
    let genr := glGenTextures gl
    let r := destroyGLTexturesLoop rest genr.2
    ({ e with ID := genr.1 } :: r.1, r.2)

/-- `SceneManager::DestroyGLTextures`. -/
def SceneManager.DestroyGLTextures (st : SceneState) (gl : GLState) :
    SceneState × GLState :=
  let r := destroyGLTexturesLoop st.textureIDs gl
  ({ st with textureIDs := r.1 }, r.2)

/-- The `shinyMaterial` defined in `SceneManager::DefineObjectMaterials`. -/
def shinyMaterial : OBJECT_MATERIAL :=
  { ambientColor := ⟨0.2, 0.2, 0.2⟩
    ambientStrength := 0.4
    diffuseColor := ⟨0.3, 0.3, 0.2⟩
    specularColor := ⟨0.3, 0.3, 0.3⟩
    shininess := 12.0
    tag := "shiny" }

/-- The `grassMaterial` defined in `SceneManager::DefineObjectMaterials`.
The source leaves `ambientColor` and `ambientStrength` uninitialized;
they are modelled as `0` (no claim depends on them). -/
def grassMaterial : OBJECT_MATERIAL :=
  { ambientColor := ⟨0, 0, 0⟩
    ambientStrength := 0
    diffuseColor := ⟨0.3, 0.3, 0.1⟩
    specularColor := ⟨0.0, 0.0, 0.0⟩
    shininess := 0.1
    tag := "grass" }

/-- The `woodMaterial` defined in `SceneManager::DefineObjectMaterials`
(`ambientColor`/`ambientStrength` uninitialized in the source, modelled
as `0`). -/
def woodMaterial : OBJECT_MATERIAL :=
  { ambientColor := ⟨0, 0, 0⟩
    ambientStrength := 0
    diffuseColor := ⟨0.3, 0.3, 0.3⟩
    specularColor := ⟨0.1, 0.1, 0.1⟩
    shininess := 0.3
    tag := "wood" }

/-- The `sunMaterial` defined in `SceneManager::DefineObjectMaterials`. -/
def sunMaterial : OBJECT_MATERIAL :=
  { ambientColor := ⟨1.8, 1.8, 1.8⟩
    ambientStrength := 15.0
    diffuseColor := ⟨1.0, 1.0, 1.0⟩
    specularColor := ⟨1.0, 1.0, 1.0⟩
    shininess := 15.0
    tag := "sun" }

/-- The `roughMaterial` defined in `SceneManager::DefineObjectMaterials`. -/
def roughMaterial : OBJECT_MATERIAL :=
  { ambientColor := ⟨0.8, 0.8, 0.8⟩
    ambientStrength := 1.0
    diffuseColor := ⟨0.8, 0.5, 0.3⟩
    specularColor := ⟨0.2, 0.2, 0.2⟩
    shininess := 0.5
    tag := "rough" }

/-- The `shadeMaterial` defined in `SceneManager::DefineObjectMaterials`. -/
def shadeMaterial : OBJECT_MATERIAL :=
  { ambientColor := ⟨0.02, 0.0, 0.0⟩
    ambientStrength := 7.0
    diffuseColor := ⟨0.08, 0.08, 0.08⟩
    specularColor := ⟨0.02, 0.02, 0.02⟩
    shininess := 0.1
    tag := "shade" }

/-- `SceneManager::DefineObjectMaterials`: pushes the six material presets
onto `m_objectMaterials` in source order. -/
def SceneManager.DefineObjectMaterials (st : SceneState) : SceneState :=
  { st with
    objectMaterials := st.objectMaterials ++
      [shinyMaterial, grassMaterial, woodMaterial, sunMaterial, roughMaterial, shadeMaterial] }

/-- `SceneManager::SetupSceneLights`: the exact sequence of uniform writes
issued to the shader manager, names and values verbatim from the source
(including the misspelt name on the ambient-color write of light 0). -/
def SceneManager.SetupSceneLights (sm : ShaderManager) : ShaderManager :=
  let s1 := sm.setBoolValue g_UseLightingName true
  let s2 := s1.setVec3Value "globalAmbientColor" ⟨0.20, 0.20, 0.00⟩
  let s3 := s2.setVec3Value "lightSources[0].position" ⟨35.0, 32.0, -1.0⟩
  let s4 := s3.setVec3Value "lightSorces[0].ambientColor" ⟨1.5, 1.5, 0.0⟩
  let s5 := s4.setVec3Value "lightSources[0].diffuseColor" ⟨2.8, 2.8, 2.8⟩
  let s6 := s5.setVec3Value "lightSources[0].specularColor" ⟨5.5, 5.5, 5.5⟩
  let s7 := s6.setFloatValue "lightSources[0].focalStrength" 10.0
  let s8 := s7.setFloatValue "lightSources[0].specularIntensity" 2.5
  let s9 := s8.setVec3Value "lightSources[1].position" ⟨19.8, 18.0, -9.5⟩
  let s10 := s9.setVec3Value "lightSources[1].ambientColor" ⟨0.1, 0.1, 0.1⟩
  let s11 := s10.setVec3Value "lightSources[1].diffuseColor" ⟨0.0, 0.0, 0.0⟩
  let s12 := s11.setVec3Value "lightSources[1].specularColor" ⟨0.1, 0.1, 0.1⟩
  let s13 := s12.setFloatValue "lightSources[1].focalStrength" 0.1
  let s14 := s13.setFloatValue "lightSources[1].specularIntensity" 0.1
  let s15 := s14.setVec3Value "lightSources[2].position" ⟨0.0, 10.0, 0.0⟩
  let s16 := s15.setVec3Value "lightSources[2].diffuseColor" ⟨0.6, 0.6, 0.6⟩
  let s17 := s16.setVec3Value "lightSources[2].specularColor" ⟨0.0, 0.0, 0.0⟩
  let s18 := s17.setFloatValue "lightSources[2].focalStrength" 2.0
  let s19 := s18.setFloatValue "lightSources[2].specularIntensity" 3.0
  let s20 := s19.setVec3Value "lightSources[3].position" ⟨-4.0, 6.0, 0.0⟩
  let s21 := s20.setVec3Value "lightSources[3].diffuseColor" ⟨0.0, 0.0, 0.0⟩
  let s22 := s21.setVec3Value "lightSources[3].specularColor" ⟨0.4, 0.4, 0.4⟩
  let s23 := s22.setFloatValue "lightSources[3].focalStrength" 5.0
  let s24 := s23.setFloatValue "lightSources[3].specularIntensity" 1.8
  s24

/-! ## Transform composer (`SceneManager::SetTransformations`)

Modelled over `ℝ`.  glm stores matrices column-major with `M[col][row]`;
the definitions below use the corresponding mathematical matrix acting on
column vectors, so entry `(r, c)` of the Lean matrix is glm's `M[c][r]`.
-/

/-- A 4×4 real matrix, modelling `glm::mat4` as a mathematical matrix
acting on column vectors. -/
abbrev Mat4 := Matrix (Fin 4) (Fin 4) ℝ

/-- A 3-component real vector (`glm::vec3` in the transform path). -/
abbrev Vec3R := Fin 3 → ℝ

/-- `glm::radians`: degrees-to-radians conversion. -/
noncomputable def glm_radians (degrees : ℝ) : ℝ := degrees * (Real.pi / 180)

/-- `glm::normalize` on a 3-vector: divide by the Euclidean norm. -/
noncomputable def glm_normalize (v : Vec3R) : Vec3R :=
  fun i => v i / Real.sqrt (v 0 * v 0 + v 1 * v 1 + v 2 * v 2)

/-- `glm::rotate(angle, v)` (equal to `glm::rotate(mat4(1), angle, v)`):
the Rodrigues rotation matrix about the normalized axis, transcribed from
glm's `matrix_transform.inl` (entry `(r, c)` here is glm's
`Rotate[c][r]`). -/
noncomputable def glm_rotate (angle : ℝ) (v : Vec3R) : Mat4 :=
  let c := Real.cos angle
  let s := Real.sin angle
  let axis := glm_normalize v
  let temp : Vec3R := fun i => (1 - c) * axis i
  !![c + temp 0 * axis 0, temp 1 * axis 0 - s * axis 2, temp 2 * axis 0 + s * axis 1, 0;
     temp 0 * axis 1 + s * axis 2, c + temp 1 * axis 1, temp 2 * axis 1 - s * axis 0, 0;
     temp 0 * axis 2 - s * axis 1, temp 1 * axis 2 + s * axis 0, c + temp 2 * axis 2, 0;
     0, 0, 0, 1]

/-- `glm::scale(v)`: non-uniform scaling of the three coordinates. -/
noncomputable def glm_scale (v : Vec3R) : Mat4 :=
  !![v 0, 0, 0, 0;
     0, v 1, 0, 0;
     0, 0, v 2, 0;
     0, 0, 0, 1]

/-- `glm::translate(p)`: translation by `p` in homogeneous coordinates. -/
noncomputable def glm_translate (p : Vec3R) : Mat4 :=
  !![1, 0, 0, p 0;
     0, 1, 0, p 1;
     0, 0, 1, p 2;
     0, 0, 0, 1]

/-- The `modelView` matrix composed by `SceneManager::SetTransformations`
and written to the `"model"` uniform:
`translation * rotationZ * rotationY * rotationX * scale`, with each
rotation built by `glm::rotate` from the angle in degrees converted by
`glm::radians` and the respective coordinate axis. -/
noncomputable def SetTransformations_modelView (scaleXYZ : Vec3R)
    (XrotationDegrees YrotationDegrees ZrotationDegrees : ℝ)
    (positionXYZ : Vec3R) : Mat4 :=
  let scale := glm_scale scaleXYZ
  let rotationX := glm_rotate (glm_radians XrotationDegrees) ![1, 0, 0]
  let rotationY := glm_rotate (glm_radians YrotationDegrees) ![0, 1, 0]
  let rotationZ := glm_rotate (glm_radians ZrotationDegrees) ![0, 0, 1]
  let translation := glm_translate positionXYZ
  translation * rotationZ * rotationY * rotationX * scale

/-- The textbook rotation matrix about the X axis (column-vector
convention), used as the specification-side form. -/
noncomputable def rotXMatrix (t : ℝ) : Mat4 :=
  !![1, 0, 0, 0;
     0, Real.cos t, -Real.sin t, 0;
     0, Real.sin t, Real.cos t, 0;
     0, 0, 0, 1]

/-- The textbook rotation matrix about the Y axis. -/
noncomputable def rotYMatrix (t : ℝ) : Mat4 :=
  !![Real.cos t, 0, Real.sin t, 0;
     0, 1, 0, 0;
     -Real.sin t, 0, Real.cos t, 0;
     0, 0, 0, 1]

/-- The textbook rotation matrix about the Z axis. -/
noncomputable def rotZMatrix (t : ℝ) : Mat4 :=
  !![Real.cos t, -Real.sin t, 0, 0;
     Real.sin t, Real.cos t, 0, 0;
     0, 0, 1, 0;
     0, 0, 0, 1]

lemma glm_rotate_axisX (t : ℝ) : glm_rotate t ![1, 0, 0] = rotXMatrix t := by
  ext i j
  fin_cases i <;> fin_cases j <;>
    norm_num [glm_rotate, glm_normalize, rotXMatrix, Real.sqrt_one]

lemma glm_rotate_axisY (t : ℝ) : glm_rotate t ![0, 1, 0] = rotYMatrix t := by
  ext i j
  fin_cases i <;> fin_cases j <;>
    norm_num [glm_rotate, glm_normalize, rotYMatrix, Real.sqrt_one]

lemma glm_rotate_axisZ (t : ℝ) : glm_rotate t ![0, 0, 1] = rotZMatrix t := by
  ext i j
  fin_cases i <;> fin_cases j <;>
    norm_num [glm_rotate, glm_normalize, rotZMatrix, Real.sqrt_one]

/-- C3: the model matrix composed by `SetTransformations` equals
`Translation × RotationZ × RotationY × RotationX × Scale` (with the three
rotation factors being the textbook axis rotations at the degree inputs
converted to radians), and therefore acts on a column vector by scaling
first, then rotating about X, then Y, then Z, then translating last. -/
theorem setTransformations_composition (scaleXYZ : Vec3R)
    (XrotationDegrees YrotationDegrees ZrotationDegrees : ℝ) (positionXYZ : Vec3R) :
    SetTransformations_modelView scaleXYZ XrotationDegrees YrotationDegrees
        ZrotationDegrees positionXYZ =
      glm_translate positionXYZ * rotZMatrix (glm_radians ZrotationDegrees) *
        rotYMatrix (glm_radians YrotationDegrees) *
        rotXMatrix (glm_radians XrotationDegrees) * glm_scale scaleXYZ
    ∧ ∀ v : Fin 4 → ℝ,
      (SetTransformations_modelView scaleXYZ XrotationDegrees YrotationDegrees
          ZrotationDegrees positionXYZ).mulVec v =
        (glm_translate positionXYZ).mulVec
          ((rotZMatrix (glm_radians ZrotationDegrees)).mulVec
            ((rotYMatrix (glm_radians YrotationDegrees)).mulVec
              ((rotXMatrix (glm_radians XrotationDegrees)).mulVec
                ((glm_scale scaleXYZ).mulVec v)))) := by
  have h1 : SetTransformations_modelView scaleXYZ XrotationDegrees YrotationDegrees
      ZrotationDegrees positionXYZ =
      glm_translate positionXYZ * rotZMatrix (glm_radians ZrotationDegrees) *
        rotYMatrix (glm_radians YrotationDegrees) *
        rotXMatrix (glm_radians XrotationDegrees) * glm_scale scaleXYZ := by
    simp only [SetTransformations_modelView]
    rw [glm_rotate_axisX, glm_rotate_axisY, glm_rotate_axisZ]
  refine ⟨h1, fun v => ?_⟩
  rw [h1]
  simp only [Matrix.mulVec_mulVec, Matrix.mul_assoc]

lemma findTextureSlotLoop_not_found (tag : String) (l : List TEXTURE_INFO) (idx : Int)
    (h : ∀ e ∈ l, e.tag ≠ tag) : findTextureSlotLoop tag l idx = -1 := by
  induction l generalizing idx with
  | nil => rfl
  | cons e rest ih =>
    have he : e.tag ≠ tag := h e (List.mem_cons_self e rest)
    simp only [findTextureSlotLoop, if_neg he]
    exact ih (idx + 1) fun x hx => h x (List.mem_cons_of_mem e hx)

lemma findTextureIDLoop_not_found (tag : String) (l : List TEXTURE_INFO)
    (h : ∀ e ∈ l, e.tag ≠ tag) : findTextureIDLoop tag l = -1 := by
  induction l with
  | nil => rfl
  | cons e rest ih =>
    have he : e.tag ≠ tag := h e (List.mem_cons_self e rest)
    simp only [findTextureIDLoop, if_neg he]
    exact ih fun x hx => h x (List.mem_cons_of_mem e hx)

lemma findTextureSlotLoop_first_match (tag : String) (e : TEXTURE_INFO)
    (l2 : List TEXTURE_INFO) (he : e.tag = tag) :
    ∀ (l1 : List TEXTURE_INFO) (idx : Int), (∀ x ∈ l1, x.tag ≠ tag) →
      findTextureSlotLoop tag (l1 ++ e :: l2) idx = idx + l1.length := by
  intro l1
  induction l1 with
  | nil =>
    intro idx _
    simp [findTextureSlotLoop, he]
  | cons x rest ih =>
    intro idx h1
    have hx : x.tag ≠ tag := h1 x (List.mem_cons_self x rest)
    rw [List.cons_append]
    simp only [findTextureSlotLoop, if_neg hx]
    rw [ih (idx + 1) fun y hy => h1 y (List.mem_cons_of_mem x hy)]
    simp only [List.length_cons]
    push_cast
    ring

lemma findTextureIDLoop_first_match (tag : String) (e : TEXTURE_INFO)
    (l2 : List TEXTURE_INFO) (he : e.tag = tag) :
    ∀ l1 : List TEXTURE_INFO, (∀ x ∈ l1, x.tag ≠ tag) →
      findTextureIDLoop tag (l1 ++ e :: l2) = (e.ID : Int) := by
  intro l1
  induction l1 with
  | nil =>
    intro _
    simp [findTextureIDLoop, he]
  | cons x rest ih =>
    intro h1
    have hx : x.tag ≠ tag := h1 x (List.mem_cons_self x rest)
    rw [List.cons_append]
    simp only [findTextureIDLoop, if_neg hx]
    exact ih fun y hy => h1 y (List.mem_cons_of_mem x hy)

/-- Every list of texture entries either contains no entry with the given
tag, or splits around the earliest entry bearing it. -/
lemma firstTagMatch_decomposition (tag : String) (l : List TEXTURE_INFO) :
    (∀ e ∈ l, e.tag ≠ tag) ∨
      ∃ l1 e l2, l = l1 ++ e :: l2 ∧ e.tag = tag ∧ ∀ x ∈ l1, x.tag ≠ tag := by
  induction l with
  | nil => left; simp
  | cons x rest ih =>
    by_cases hx : x.tag = tag
    · right
      exact ⟨[], x, rest, by simp, hx, by simp⟩
    · rcases ih with h | ⟨l1, e, l2, hl, he, h1⟩
      · left
        intro e hmem
        rcases List.mem_cons.mp hmem with rfl | hm
        · exact hx
        · exact h e hm
      · right
        refine ⟨x :: l1, e, l2, by simp [hl], he, ?_⟩
        intro y hy
        rcases List.mem_cons.mp hy with rfl | hm
        · exact hx
        · exact h1 y hm

/-- Combined first-match characterization of the two texture lookups. -/
lemma findTextureSlot_cases (st : SceneState) (tag : String) :
    ((∀ e ∈ st.textureIDs, e.tag ≠ tag) ∧
      (SceneManager.FindTextureSlot st tag).1 = -1 ∧
      (SceneManager.FindTextureID st tag).1 = -1)
    ∨ (∃ l1 e l2, st.textureIDs = l1 ++ e :: l2 ∧ e.tag = tag ∧
        (∀ x ∈ l1, x.tag ≠ tag) ∧
        (SceneManager.FindTextureSlot st tag).1 = l1.length ∧
        (SceneManager.FindTextureID st tag).1 = e.ID) := by
  rcases firstTagMatch_decomposition tag st.textureIDs with h | ⟨l1, e, l2, hl, he, h1⟩
  · left
    exact ⟨h, findTextureSlotLoop_not_found tag st.textureIDs 0 h,
      findTextureIDLoop_not_found tag st.textureIDs h⟩
  · right
    refine ⟨l1, e, l2, hl, he, h1, ?_, ?_⟩
    · show findTextureSlotLoop tag st.textureIDs 0 = l1.length
      rw [hl, findTextureSlotLoop_first_match tag e l2 he l1 0 h1]
      ring
    · show findTextureIDLoop tag st.textureIDs = e.ID
      rw [hl, findTextureIDLoop_first_match tag e l2 he l1 h1]

/-- C4: `FindTextureSlot` returns the slot (list index) of the
earliest-registered entry bearing the tag; it returns the sentinel `-1`
exactly when the tag is not registered; every value it returns under a
registered tag is a valid slot (`< m_loadedTextures`), so `-1` is distinct
from every valid slot; and the lookup leaves the registry state
unchanged. -/
theorem findTextureSlot_spec (st : SceneState) (tag : String) :
    (∀ (l1 : List TEXTURE_INFO) (e : TEXTURE_INFO) (l2 : List TEXTURE_INFO),
        st.textureIDs = l1 ++ e :: l2 → e.tag = tag → (∀ x ∈ l1, x.tag ≠ tag) →
        (SceneManager.FindTextureSlot st tag).1 = l1.length)
    ∧ ((SceneManager.FindTextureSlot st tag).1 = -1 ↔ ∀ e ∈ st.textureIDs, e.tag ≠ tag)
    ∧ (∀ k : Nat, (SceneManager.FindTextureSlot st tag).1 = (k : Int) →
        k < st.textureIDs.length)
    ∧ (SceneManager.FindTextureSlot st tag).2 = st := by
  refine ⟨?_, ?_, ?_, rfl⟩
  · intro l1 e l2 hl he h1
    show findTextureSlotLoop tag st.textureIDs 0 = l1.length
    rw [hl, findTextureSlotLoop_first_match tag e l2 he l1 0 h1]
    ring
  · rcases findTextureSlot_cases st tag with ⟨h, hs, _⟩ | ⟨l1, e, l2, hl, he, h1, hs, _⟩
    · exact ⟨fun _ => h, fun _ => hs⟩
    · rw [hs]
      constructor
      · intro habs
        omega
      · intro hall
        exact absurd he (hall e (hl ▸ List.mem_append_right l1 (List.mem_cons_self e l2)))
  · intro k hk
    rcases findTextureSlot_cases st tag with ⟨h, hs, _⟩ | ⟨l1, e, l2, hl, he, h1, hs, _⟩
    · rw [hs] at hk
      omega
    · rw [hs] at hk
      have : k = l1.length := by omega
      subst this
      rw [hl]
      simp

/-- Witness for C4 at a concrete registry with a duplicate tag: the
earliest entry for "a" (slot 0) wins, and an unregistered tag yields
`-1`. -/
theorem findTextureSlot_spec_witness :
    (SceneManager.FindTextureSlot ⟨none, [⟨7, "a"⟩, ⟨8, "b"⟩, ⟨9, "a"⟩], []⟩ "a").1 = 0
    ∧ (SceneManager.FindTextureSlot ⟨none, [⟨7, "a"⟩, ⟨8, "b"⟩, ⟨9, "a"⟩], []⟩ "zzz").1 = -1 := by
  constructor
  · have h := (findTextureSlot_spec ⟨none, [⟨7, "a"⟩, ⟨8, "b"⟩, ⟨9, "a"⟩], []⟩ "a").1
      [] ⟨7, "a"⟩ [⟨8, "b"⟩, ⟨9, "a"⟩] rfl rfl (by simp)
    simpa using h
  · exact (findTextureSlot_spec ⟨none, [⟨7, "a"⟩, ⟨8, "b"⟩, ⟨9, "a"⟩], []⟩ "zzz").2.1.mpr
      (by decide)

/-- C10: the two texture lookups select the same first-matching registry
entry: a non-negative slot `s` from `FindTextureSlot` means `FindTextureID`
returns the handle stored at index `s`, and the two return `-1` together,
exactly when no registered entry bears the tag. -/
theorem findTextureID_agrees_with_findTextureSlot (st : SceneState) (tag : String) :
    ((SceneManager.FindTextureSlot st tag).1 = -1 ↔
      (SceneManager.FindTextureID st tag).1 = -1)
    ∧ ((SceneManager.FindTextureSlot st tag).1 = -1 ↔
      ∀ e ∈ st.textureIDs, e.tag ≠ tag)
    ∧ (∀ s : Nat, (SceneManager.FindTextureSlot st tag).1 = (s : Int) →
        s < st.textureIDs.length ∧
        (SceneManager.FindTextureID st tag).1 =
          ((st.textureIDs.getD s ⟨0, ""⟩).ID : Int)) := by
  rcases findTextureSlot_cases st tag with ⟨h, hs, hid⟩ | ⟨l1, e, l2, hl, he, h1, hs, hid⟩
  · refine ⟨by rw [hs, hid], ⟨fun _ => h, fun _ => hs⟩, ?_⟩
    intro s hcontra
    rw [hs] at hcontra
    omega
  · have hmem : e ∈ st.textureIDs := hl ▸ List.mem_append_right l1 (List.mem_cons_self e l2)
    refine ⟨?_, ?_, ?_⟩
    · rw [hs, hid]
      constructor
      · intro habs; omega
      · intro habs; omega
    · rw [hs]
      constructor
      · intro habs; omega
      · intro hall
        exact absurd he (hall e hmem)
    · intro s hsv
      rw [hs] at hsv
      have hse : s = l1.length := by omega
      subst hse
      constructor
      · rw [hl]
        simp
      · rw [hid, hl, List.getD_append_right l1 (e :: l2) ⟨0, ""⟩ l1.length (le_refl _)]
        simp

/-- Witness for C10 at a concrete two-entry registry: the tag "grass" has
slot 1 and `FindTextureID` returns the handle stored there. -/
theorem findTextureID_agrees_with_findTextureSlot_witness :
    1 < (⟨none, [⟨7, "path"⟩, ⟨9, "grass"⟩], []⟩ : SceneState).textureIDs.length
    ∧ (SceneManager.FindTextureID ⟨none, [⟨7, "path"⟩, ⟨9, "grass"⟩], []⟩ "grass").1 =
      (((⟨none, [⟨7, "path"⟩, ⟨9, "grass"⟩], []⟩ : SceneState).textureIDs.getD 1 ⟨0, ""⟩).ID : Int) :=
  (findTextureID_agrees_with_findTextureSlot
    ⟨none, [⟨7, "path"⟩, ⟨9, "grass"⟩], []⟩ "grass").2.2 1 (by decide)

lemma findMaterialLoop_not_found (t : String) (l : List OBJECT_MATERIAL)
    (junk : OBJECT_MATERIAL) (h : ∀ x ∈ l, x.tag ≠ t) :
    findMaterialLoop t l junk = junk := by
  induction l with
  | nil => rfl
  | cons m rest ih =>
    have hm : m.tag ≠ t := h m (List.mem_cons_self m rest)
    simp only [findMaterialLoop, if_neg hm]
    exact ih fun x hx => h x (List.mem_cons_of_mem m hx)

lemma findMaterialLoop_first_match (t : String) (m : OBJECT_MATERIAL)
    (l2 : List OBJECT_MATERIAL) (hm : m.tag = t) :
    ∀ (l1 : List OBJECT_MATERIAL) (junk : OBJECT_MATERIAL), (∀ x ∈ l1, x.tag ≠ t) →
      findMaterialLoop t (l1 ++ m :: l2) junk =
        { junk with
          ambientColor := m.ambientColor
          ambientStrength := m.ambientStrength
          diffuseColor := m.diffuseColor
          specularColor := m.specularColor
          shininess := m.shininess } := by
  intro l1
  induction l1 with
  | nil =>
    intro junk _
    simp [findMaterialLoop, hm]
  | cons x rest ih =>
    intro junk h1
    have hx : x.tag ≠ t := h1 x (List.mem_cons_self x rest)
    rw [List.cons_append]
    simp only [findMaterialLoop, if_neg hx]
    exact ih junk fun y hy => h1 y (List.mem_cons_of_mem x hy)

/-- C6: with two materials bearing the same tag inserted in order, any
lookup of that tag copies the five fields of the first inserted entry; the
second (later duplicate) does not influence the result at all — the
right-hand side mentions only `m1`. -/
theorem findMaterial_duplicate_first_wins (l1 l2 l3 : List OBJECT_MATERIAL)
    (m1 m2 : OBJECT_MATERIAL) (t : String) (junk : OBJECT_MATERIAL)
    (h1 : m1.tag = t) (h2 : m2.tag = t) (hl1 : ∀ x ∈ l1, x.tag ≠ t) :
    SceneManager.FindMaterial (l1 ++ m1 :: l2 ++ m2 :: l3) t junk =
      (true,
        { junk with
          ambientColor := m1.ambientColor
          ambientStrength := m1.ambientStrength
          diffuseColor := m1.diffuseColor
          specularColor := m1.specularColor
          shininess := m1.shininess }) := by
  have hne : (l1 ++ m1 :: l2 ++ m2 :: l3).length ≠ 0 := by simp
  unfold SceneManager.FindMaterial
  rw [if_neg hne]
  have hsplit : l1 ++ m1 :: l2 ++ m2 :: l3 = l1 ++ m1 :: (l2 ++ m2 :: l3) := by simp
  rw [hsplit, findMaterialLoop_first_match t m1 (l2 ++ m2 :: l3) h1 l1 junk hl1]

/-- A concrete material with tag "x" and shininess 1 (all other fields
zero), for the duplicate-insertion scenario of the spec. -/
def matX1 : OBJECT_MATERIAL :=
  { ambientColor := ⟨0, 0, 0⟩
    ambientStrength := 0
    diffuseColor := ⟨0, 0, 0⟩
    specularColor := ⟨0, 0, 0⟩
    shininess := 1
    tag := "x" }

/-- The shadowing duplicate: same tag "x", shininess 2. -/
def matX2 : OBJECT_MATERIAL :=
  { matX1 with shininess := 2 }

/-- A recognizable stand-in for the uninitialized local `OBJECT_MATERIAL`
of `SetShaderMaterial` (every field 9). -/
def junkMaterial : OBJECT_MATERIAL :=
  { ambientColor := ⟨9, 9, 9⟩
    ambientStrength := 9
    diffuseColor := ⟨9, 9, 9⟩
    specularColor := ⟨9, 9, 9⟩
    shininess := 9
    tag := "junk" }

/-- Witness for C6: with `(tag="x", shininess=1)` inserted before
`(tag="x", shininess=2)`, `FindMaterial "x"` yields shininess 1. -/
theorem findMaterial_duplicate_first_wins_witness :
    (SceneManager.FindMaterial [matX1, matX2] "x" junkMaterial).2.shininess = 1 := by
  have h := findMaterial_duplicate_first_wins [] [] [] matX1 matX2 "x" junkMaterial
    rfl rfl (by simp)
  simp only [List.nil_append, List.singleton_append] at h
  rw [h]
  rfl

/-- C1 (code bug): with a non-empty material registry and a tag that was
never defined, `FindMaterial` reports `true` — not the not-found `false`
the spec states — while indeed leaving the caller-supplied material
untouched; only an empty registry produces `false`. -/
theorem findMaterial_missing_tag_reports_found :
    SceneManager.FindMaterial [shinyMaterial] "giraffe" junkMaterial = (true, junkMaterial)
    ∧ SceneManager.FindMaterial [] "giraffe" junkMaterial = (false, junkMaterial) := by
  constructor
  · rfl
  · rfl

/-- The scene state used to exhibit the `SetShaderMaterial` consequence of
the `FindMaterial` bug: one defined material, an attached (empty) shader
manager. -/
def stMaterialBug : SceneState :=
  { pShaderManager := some ⟨[]⟩
    textureIDs := []
    objectMaterials := [shinyMaterial] }

/-- C2 (code bug): pushing an unresolvable material tag with a non-empty
registry writes all five `material.*` uniforms anyway — with the values of
the uninitialized local (here `junkMaterial`) — because `FindMaterial`
wrongly reports `true`; the spec requires no write at all in this case. -/
theorem setShaderMaterial_missing_tag_writes :
    SceneManager.SetShaderMaterial junkMaterial stMaterialBug "giraffe" =
      some { stMaterialBug with pShaderManager := some ⟨[
        ("material.ambientColor", UniformValue.v3 ⟨9, 9, 9⟩),
        ("material.ambientStrength", UniformValue.f 9),
        ("material.diffuseColor", UniformValue.v3 ⟨9, 9, 9⟩),
        ("material.specularColor", UniformValue.v3 ⟨9, 9, 9⟩),
        ("material.shininess", UniformValue.f 9)]⟩ } := by
  rfl

/-- C5: `CreateGLTexture` succeeds exactly on decodable images with 3 or 4
channels; on success the tag is appended at index `m_loadedTextures` (the
next slot) and the counter grows by one; on failure the registry state is
unchanged (in particular the slot counter is not incremented). -/
theorem createGLTexture_spec (img : Option DecodedImage) (tag : String)
    (st : SceneState) (gl : GLState) :
    ((SceneManager.CreateGLTexture img tag st gl).1 = true ↔
      ∃ im, img = some im ∧ (im.colorChannels = 3 ∨ im.colorChannels = 4))
    ∧ ((SceneManager.CreateGLTexture img tag st gl).1 = true →
      (SceneManager.CreateGLTexture img tag st gl).2.1 =
        { st with textureIDs := st.textureIDs ++ [⟨gl.nextTextureID, tag⟩] } ∧
      (SceneManager.CreateGLTexture img tag st gl).2.1.loadedTextures =
        st.loadedTextures + 1 ∧
      (SceneManager.CreateGLTexture img tag st gl).2.1.textureIDs.getD
        st.loadedTextures ⟨0, ""⟩ = ⟨gl.nextTextureID, tag⟩)
    ∧ ((SceneManager.CreateGLTexture img tag st gl).1 = false →
      (SceneManager.CreateGLTexture img tag st gl).2.1 = st) := by
  rcases img with _ | image
  · refine ⟨by simp [SceneManager.CreateGLTexture], ?_, fun _ => rfl⟩
    intro habs
    simp [SceneManager.CreateGLTexture] at habs
  · by_cases h3 : image.colorChannels = 3
    · have hEq : SceneManager.CreateGLTexture (some image) tag st gl =
          (true, { st with textureIDs := st.textureIDs ++ [⟨gl.nextTextureID, tag⟩] },
            (glGenTextures gl).2) := by
        simp [SceneManager.CreateGLTexture, h3, glGenTextures]
      refine ⟨?_, fun _ => ⟨by rw [hEq], ?_, ?_⟩, by simp [hEq]⟩
      · rw [hEq]
        exact ⟨fun _ => ⟨image, rfl, Or.inl h3⟩, fun _ => rfl⟩
      · rw [hEq]
        simp [SceneState.loadedTextures]
      · rw [hEq]
        show (st.textureIDs ++ [(⟨gl.nextTextureID, tag⟩ : TEXTURE_INFO)]).getD
            st.textureIDs.length ⟨0, ""⟩ = (⟨gl.nextTextureID, tag⟩ : TEXTURE_INFO)
        rw [List.getD_append_right st.textureIDs _ ⟨0, ""⟩ st.textureIDs.length (le_refl _)]
        simp
    · by_cases h4 : image.colorChannels = 4
      · have hEq : SceneManager.CreateGLTexture (some image) tag st gl =
            (true, { st with textureIDs := st.textureIDs ++ [⟨gl.nextTextureID, tag⟩] },
              (glGenTextures gl).2) := by
          simp [SceneManager.CreateGLTexture, h3, h4, glGenTextures]
        refine ⟨?_, fun _ => ⟨by rw [hEq], ?_, ?_⟩, by simp [hEq]⟩
        · rw [hEq]
          exact ⟨fun _ => ⟨image, rfl, Or.inr h4⟩, fun _ => rfl⟩
        · rw [hEq]
          simp [SceneState.loadedTextures]
        · rw [hEq]
          show (st.textureIDs ++ [(⟨gl.nextTextureID, tag⟩ : TEXTURE_INFO)]).getD
              st.textureIDs.length ⟨0, ""⟩ = (⟨gl.nextTextureID, tag⟩ : TEXTURE_INFO)
          rw [List.getD_append_right st.textureIDs _ ⟨0, ""⟩ st.textureIDs.length (le_refl _)]
          simp
      · have hEq : SceneManager.CreateGLTexture (some image) tag st gl =
            (false, st, (glGenTextures gl).2) := by
          simp [SceneManager.CreateGLTexture, h3, h4, glGenTextures]
        refine ⟨?_, ?_, fun _ => by rw [hEq]⟩
        · rw [hEq]
          simp [h3, h4]
        · intro habs
          rw [hEq] at habs
          simp at habs

/-- Witness for C5: a 3-channel image loads into the next slot, while a
2-channel image fails with the registry untouched. -/
theorem createGLTexture_spec_witness :
    ((SceneManager.CreateGLTexture (some ⟨4, 4, 3⟩) "path" ⟨none, [], []⟩ ⟨1, []⟩).1 = true ↔
      ∃ im, (some (⟨4, 4, 3⟩ : DecodedImage)) = some im ∧
        (im.colorChannels = 3 ∨ im.colorChannels = 4))
    ∧ ((SceneManager.CreateGLTexture (some ⟨4, 4, 2⟩) "gray" ⟨none, [], []⟩ ⟨1, []⟩).1 = false →
      (SceneManager.CreateGLTexture (some ⟨4, 4, 2⟩) "gray" ⟨none, [], []⟩ ⟨1, []⟩).2.1 =
        ⟨none, [], []⟩) :=
  ⟨(createGLTexture_spec (some ⟨4, 4, 3⟩) "path" ⟨none, [], []⟩ ⟨1, []⟩).1,
    (createGLTexture_spec (some ⟨4, 4, 2⟩) "gray" ⟨none, [], []⟩ ⟨1, []⟩).2.2⟩

/-- C7 (code bug): `DestroyGLTextures` runs `glGenTextures` — not
`glDeleteTextures` — on every registered entry: with one texture whose
handle 1 is allocated, the call leaves handle 1 allocated (nothing is
released), allocates a fresh handle 2, and overwrites the stored ID with
it.  With no textures loaded it is indeed a no-op. -/
theorem destroyGLTextures_generates_instead_of_deleting :
    SceneManager.DestroyGLTextures ⟨none, [⟨1, "path"⟩], []⟩ ⟨2, [1]⟩ =
      (⟨none, [⟨2, "path"⟩], []⟩, ⟨3, [1, 2]⟩)
    ∧ 1 ∈ (SceneManager.DestroyGLTextures ⟨none, [⟨1, "path"⟩], []⟩ ⟨2, [1]⟩).2.allocated
    ∧ SceneManager.DestroyGLTextures ⟨none, [], []⟩ ⟨2, [1]⟩ = (⟨none, [], []⟩, ⟨2, [1]⟩) := by
  refine ⟨rfl, by decide, rfl⟩

/-- C8 (code bug): during light setup, the ambient color of light 0 is
written under the misspelt uniform name "lightSorces[0].ambientColor", and
no write under the contract name "lightSources[0].ambientColor" ever
occurs. -/
theorem setupSceneLights_misspells_light0_ambient :
    "lightSorces[0].ambientColor" ∈
      (SceneManager.SetupSceneLights ⟨[]⟩).writes.map Prod.fst
    ∧ "lightSources[0].ambientColor" ∉
      (SceneManager.SetupSceneLights ⟨[]⟩).writes.map Prod.fst := by
  constructor
  · decide
  · decide

/-- C9: `SetShaderTexture` (with an attached shader manager) appends
exactly two writes: `bUseTexture := 1` (texture-sampling mode on) and
`objectTexture := FindTextureSlot(tag)`; for an unregistered tag that slot
is the sentinel `-1`, and the operation is total (no exception path). -/
theorem setShaderTexture_spec (st : SceneState) (textureTag : String) (sm : ShaderManager)
    (h : st.pShaderManager = some sm) :
    SceneManager.SetShaderTexture st textureTag =
      { st with pShaderManager := some ⟨sm.writes ++
          [(g_UseTextureName, UniformValue.i 1),
           (g_TextureValueName,
             UniformValue.sampler (SceneManager.FindTextureSlot st textureTag).1)]⟩ }
    ∧ ((∀ e ∈ st.textureIDs, e.tag ≠ textureTag) →
        (SceneManager.FindTextureSlot st textureTag).1 = -1) := by
  constructor
  · unfold SceneManager.SetShaderTexture
    rw [h]
    simp [ShaderManager.setIntValue, ShaderManager.setSampler2DValue]
  · exact fun hall => findTextureSlotLoop_not_found textureTag st.textureIDs 0 hall

/-- Witness for C9 at a concrete state whose registry does not contain the
pushed tag: texture mode is enabled and the sentinel `-1` is written. -/
theorem setShaderTexture_spec_witness :
    SceneManager.SetShaderTexture ⟨some ⟨[]⟩, [⟨7, "path"⟩], []⟩ "grass" =
      { pShaderManager := some ⟨[(g_UseTextureName, UniformValue.i 1),
          (g_TextureValueName, UniformValue.sampler
            (SceneManager.FindTextureSlot ⟨some ⟨[]⟩, [⟨7, "path"⟩], []⟩ "grass").1)]⟩
        textureIDs := [⟨7, "path"⟩]
        objectMaterials := [] }
    ∧ (SceneManager.FindTextureSlot ⟨some ⟨[]⟩, [⟨7, "path"⟩], []⟩ "grass").1 = -1 := by
  have h := setShaderTexture_spec ⟨some ⟨[]⟩, [⟨7, "path"⟩], []⟩ "grass" ⟨[]⟩ rfl
  exact ⟨h.1, h.2 (by decide)⟩
